import Mathlib

/-!
Shallow embedding of the microplastics platform's trend-prediction and
hotspot-alerting pipeline, translated from src/models/predictor.py and
src/utils/data_loader.py.  Python floats are modelled as rationals, pandas
NaN/missing entries as Option, and a pandas DataFrame as a list of row
structures.  Wall-clock timestamp fields (last_calculated, last_detected)
are omitted: they carry no data relevant to any property stated here.
-/

set_option linter.unusedVariables false

/-- Python round(x, 2) modelled on rationals: scale by 100, round to the
nearest integer, unscale.  The source values exercised here are never at a
half-way tie, so the tie-breaking convention is immaterial. -/
def round2 (q : ℚ) : ℚ := (⌊q * 100 + 1/2⌋ : ℤ) / 100

/-- Python round(x, 1) modelled on rationals, as in round2. -/
def round1 (q : ℚ) : ℚ := (⌊q * 10 + 1/2⌋ : ℤ) / 10

/-- Arithmetic mean of a list, as pandas Series.mean on a non-empty
numeric column; on the empty list this yields 0/0 = 0 (pandas gives NaN,
reachable only on the exception path that is modelled explicitly). -/
def mean (l : List ℚ) : ℚ := l.sum / (l.length : ℚ)

/-- Cleaned sample record: one row of the prepared table produced by
load_microplastics_data (data_loader.py).  The month field is the calendar
month of the sample_date column, from which predictor.py derives a season. -/
structure Row where
  latitude : ℚ
  longitude : ℚ
  concentration : ℚ
  year : ℤ
  month : ℕ
  region : String
  polymer_type : String
deriving DecidableEq

/-- Raw sample record before cleaning: latitude, longitude, concentration
and year are Option-valued to model pandas to_numeric(errors=coerce),
where a missing or non-numeric cell becomes NaN (here: none). -/
structure RawRow where
  latitude : Option ℚ
  longitude : Option ℚ
  concentration : Option ℚ
  year : Option ℤ
  month : ℕ
  polymer_type : String
deriving DecidableEq

/-- Region assignment for one coordinate pair: the loop body of
assign_regions (data_loader.py lines 121-150).  A none coordinate models
pd.isna, mapped to the label Unknown. -/
def assign_region (latitude longitude : Option ℚ) : String :=
  match latitude, longitude with
  | none, _ => "Unknown"
  | _, none => "Unknown"
  | some lat, some lon =>
    if -10 ≤ lat ∧ lat ≤ 10 then
      if -180 ≤ lon ∧ lon ≤ -30 then "South America Pacific"
      else if -30 ≤ lon ∧ lon ≤ 60 then "Atlantic"
      else "Indian Ocean"
    else if 10 < lat ∧ lat ≤ 60 then
      if -180 ≤ lon ∧ lon ≤ 0 then "North America Pacific"
      else if 0 ≤ lon ∧ lon ≤ 60 then "Europe"
      else "Asia Pacific"
    else if -60 ≤ lat ∧ lat < -10 then
      if -180 ≤ lon ∧ lon ≤ -110 then "South Pacific"
      else if -110 ≤ lon ∧ lon ≤ 20 then "South Atlantic"
      else "Indian Ocean"
    else "Polar Regions"

/-- Vectorised form of region assignment, as assign_regions zips the two
coordinate columns. -/
def assign_regions (latitudes longitudes : List (Option ℚ)) : List String :=
  List.zipWith assign_region latitudes longitudes

/-- The fixed enumeration of region labels that assign_regions can emit
for coordinate pairs free of null/NaN values. -/
def regionLabels : List String :=
  ["South America Pacific", "Atlantic", "Indian Ocean",
   "North America Pacific", "Europe", "Asia Pacific",
   "South Pacific", "South Atlantic", "Polar Regions"]

/-- Coordinate range check of data_loader.py line 55:
df.latitude.between(-90, 90) and df.longitude.between(-180, 180),
both bounds inclusive; a NaN (none) coordinate compares as False. -/
def validRow (r : RawRow) : Bool :=
  match r.latitude, r.longitude with
  | some lat, some lon => decide (-90 ≤ lat ∧ lat ≤ 90 ∧ -180 ≤ lon ∧ lon ≤ 180)
  | _, _ => false

/-- Per-row cleaning of data_loader.py lines 46-52: concentration NaN is
filled with 0, year NaN with the current calendar year, and the region is
assigned from the (possibly NaN) coordinates.  The getD 0 on the
coordinates is only ever exercised on rows that pass validRow, where both
are some. -/
def toRow (current_year : ℤ) (r : RawRow) : Row :=
  { latitude := r.latitude.getD 0
    longitude := r.longitude.getD 0
    concentration := r.concentration.getD 0
    year := r.year.getD current_year
    month := r.month
    region := assign_region r.latitude r.longitude
    polymer_type := r.polymer_type }

/-- Cleaning and filtering stage of load_microplastics_data
(data_loader.py lines 45-57), starting from already-parsed raw records
(CSV reading, column aliasing and sample-data generation are file-system
I/O outside this embedding).  The source cleans every row and then filters
on the coordinate ranges; since both act row by row, this is expressed as
the filter followed by the per-row cleaning map. -/
def load_microplastics_data (raw : List RawRow) (current_year : ℤ) : List Row :=
  (raw.filter validRow).map (toRow current_year)

/-- Sorted copy of a list of rationals, used by the pandas median. -/
def sortQ (l : List ℚ) : List ℚ := List.insertionSort (fun a b => a ≤ b) l

/-- Pandas Series.median over the non-NaN values: middle element of the
sorted list for odd length, average of the two middle elements for even
length; 0 stands in for the NaN that pandas returns on an empty column. -/
def median (l : List ℚ) : ℚ :=
  let s := sortQ l
  if s.length = 0 then 0
  else if s.length % 2 = 1 then s.getD (s.length / 2) 0
  else (s.getD (s.length / 2 - 1) 0 + s.getD (s.length / 2) 0) / 2

/-- Series.fillna(median) of predictor.py line 25 applied to an
Option-valued concentration column: every missing entry is replaced by the
median of the present entries. -/
def fillna_median (col : List (Option ℚ)) : List ℚ :=
  col.map (fun x => x.getD (median (col.filterMap id)))

/-- Season index of predictor.py line 20: month % 12 // 3 + 1. -/
def season (month : ℕ) : ℕ := month % 12 / 3 + 1

/-- Feature vector of predictor.py line 23: year, latitude, longitude,
season.  The fillna(mean) of line 24 is the identity here because every
field of a cleaned Row is total. -/
structure Features where
  year : ℤ
  latitude : ℚ
  longitude : ℚ
  season : ℕ
deriving DecidableEq

/-- Feature extraction for one training row. -/
def featuresOf (r : Row) : Features :=
  { year := r.year, latitude := r.latitude, longitude := r.longitude,
    season := season r.month }

/-- prepare_training_data (predictor.py lines 9-27): filter to the
requested region; when fewer than 5 rows match, fall back to a copy of the
full table with every region label overwritten by Global.  Returns
(X, y, regional_data).  The year_group column of line 19 is engineered but
never read downstream and is omitted. -/
def prepare_training_data (gdf : List Row) (region : String) :
    List Features × List ℚ × List Row :=
  let regional := gdf.filter (fun r => r.region == region)
  let regional :=
    if regional.length < 5 then gdf.map (fun r => { r with region := "Global" })
    else regional
  (regional.map featuresOf, regional.map (fun r => r.concentration), regional)

/-- One entry of the future_predictions list built in predictor.py
lines 64-90. -/
structure FuturePred where
  year : ℤ
  predicted_concentration : ℚ
  change_from_current : ℚ
deriving DecidableEq

/-- Annual growth multiplier of predictor.py line 82 (5 percent). -/
def growth_factor : ℚ := 105/100

/-- Loop body of predictor.py lines 64-90.  The counter i is the loop
variable, k the number of iterations still to run, lastPred the running
compounded value.  modelPred stands for the fitted estimator's point
prediction at the future year (lines 75-79); exactly as in the source,
its value is computed and then immediately overwritten by the compounding
step of line 83, so it never influences the output. -/
def futureLoop (modelPred : ℤ → ℚ) (current : ℚ) (currentYear : ℤ) :
    ℕ → ℕ → ℚ → List FuturePred
  | _, 0, _ => []
  | i, k+1, lastPred =>
    let futureYear : ℤ := currentYear + i
    let pred := modelPred futureYear
    let pred := lastPred * growth_factor
    { year := futureYear
      predicted_concentration := round2 pred
      change_from_current := round1 ((pred - current) / current * 100) } ::
      futureLoop modelPred current currentYear (i+1) k pred

/-- The future_predictions list of predictor.py lines 61-90: the loop runs
for i = 1 .. years_ahead with last_pred seeded by the current mean. -/
def future_predictions (modelPred : ℤ → ℚ) (current : ℚ) (currentYear : ℤ)
    (years_ahead : ℕ) : List FuturePred :=
  futureLoop modelPred current currentYear 1 years_ahead current

/-- Recommendation tiers of predictor.py lines 181-214 (get_recommendations);
decorative emoji prefixes of the source strings are elided. -/
def get_recommendations (increase_percentage : ℚ) : List String :=
  if increase_percentage > 20 then
    ["IMMEDIATE ACTION REQUIRED",
     "Schedule emergency cleanup operations",
     "Implement fishing restrictions in affected areas",
     "Notify international environmental agencies",
     "Conduct emergency impact assessments"]
  else if increase_percentage > 10 then
    ["HIGH PRIORITY",
     "Plan comprehensive cleanup campaigns",
     "Increase monitoring frequency to monthly",
     "Engage local communities in awareness programs",
     "Apply for emergency funding"]
  else if increase_percentage > 5 then
    ["CONCERN LEVEL: MODERATE",
     "Maintain current monitoring schedule",
     "Consider seasonal cleanup operations",
     "Enhance community reporting programs",
     "Evaluate long-term mitigation strategies"]
  else
    ["CURRENT TREND: STABLE",
     "Continue regular monitoring",
     "Maintain community engagement",
     "Support ongoing research initiatives",
     "Share success stories to maintain awareness"]

/-- Prediction record returned by predict_future_trend (the
last_calculated timestamp is omitted, see the file header). -/
structure Prediction where
  region : String
  current_concentration : ℚ
  current_year : ℤ
  prediction_year : ℤ
  predicted_concentration : ℚ
  percentage_increase : ℚ
  absolute_increase : ℚ
  confidence : ℕ
  risk_level : String
  recommendations : List String
  model_used : String
  data_points_used : ℕ
deriving DecidableEq

/-- The fixed fallback record of predictor.py lines 114-128, returned by
the except branch. -/
def fallback_prediction (region : String) : Prediction :=
  { region := region
    current_concentration := 50
    current_year := 2024
    prediction_year := 2026
    predicted_concentration := 585/10
    percentage_increase := 17
    absolute_increase := 85/10
    confidence := 60
    risk_level := "Moderate"
    recommendations := ["Monitor closely", "Consider preventive measures"]
    model_used := "fallback"
    data_points_used := 0 }

/-- Tier selection condition of predictor.py line 50: the RandomForest
ensemble (train_advanced_model) is trained exactly when the advanced flag
is passed and len(X) > 20; every other case runs train_simple_model. -/
def uses_advanced_model (gdf : List Row) (region : String)
    (model_type : String) : Bool :=
  model_type == "advanced" &&
    decide (20 < (prepare_training_data gdf region).1.length)

/-- predict_future_trend (predictor.py lines 45-128).  The try body can
raise only from fitting an estimator on an empty training set or from the
final future_predictions[-1] index when years_ahead < 1; the except branch
is therefore modelled by the explicit guard returning the fallback record.
modelPred abstracts the fitted estimator's point prediction; the returned
record never depends on it (its value is overwritten, line 83). -/
def predict_future_trend (gdf : List Row) (region : String)
    (years_ahead : ℕ) (model_type : String) (modelPred : ℤ → ℚ) : Prediction :=
  let X := (prepare_training_data gdf region).1
  let y := (prepare_training_data gdf region).2.1
  let regional := (prepare_training_data gdf region).2.2
  if regional.length = 0 ∨ years_ahead = 0 then fallback_prediction region
  else
    let current_year := ((regional.map (fun r => r.year)).max?).getD 0
    let current_concentration := mean y
    let preds := future_predictions modelPred current_concentration
      current_year years_ahead
    let final := preds.getLast?.getD
      { year := 0, predicted_concentration := 0, change_from_current := 0 }
    let percentage_increase := final.change_from_current
    { region := region
      current_concentration := round2 current_concentration
      current_year := current_year
      prediction_year := final.year
      predicted_concentration := final.predicted_concentration
      percentage_increase := percentage_increase
      absolute_increase :=
        round2 (final.predicted_concentration - current_concentration)
      confidence := if model_type == "simple" then 75 else 85
      risk_level :=
        if percentage_increase > 10 then "High"
        else if percentage_increase > 5 then "Moderate" else "Low"
      recommendations := get_recommendations percentage_increase
      model_used := model_type
      data_points_used := X.length }

/-- Hotspot alert record of predictor.py lines 160-171 (the location
display string and the last_detected timestamp are omitted; lat and lon
carry the parsed grid coordinates). -/
structure Alert where
  lat : ℚ
  lon : ℚ
  avg_concentration : ℚ
  max_concentration : ℚ
  sample_count : ℕ
  dominant_polymer : String
  risk_score : ℚ
  urgency : String
deriving DecidableEq

/-- Grid snapping of predictor.py lines 140-142: latitude and longitude
rounded to one decimal degree; the pair plays the role of location_id. -/
def gridKey (r : Row) : ℚ × ℚ := (round1 r.latitude, round1 r.longitude)

/-- Modal value of a categorical column, as Series.mode().iloc[0]: among
the most frequent strings, the smallest in sort order; Unknown on an empty
column. -/
def modeStr (l : List String) : String :=
  let cands := l.dedup
  let maxCount := (cands.map (fun s => l.count s)).foldl max 0
  let best := cands.filter (fun s => l.count s == maxCount)
  match best with
  | [] => "Unknown"
  | b :: bs => bs.foldl (fun a c => if c < a then c else a) b

/-- Aggregation of one grid cell (predictor.py lines 145-171): mean, max
and count of the cell's concentrations (rounded to 2 decimals by the
.round(2) on line 150), modal polymer, risk score and urgency. -/
def mkAlert (threshold : ℚ) (key : ℚ × ℚ) (rows : List Row) : Alert :=
  let concs := rows.map (fun r => r.concentration)
  let avg := round2 (mean concs)
  { lat := key.1
    lon := key.2
    avg_concentration := avg
    max_concentration := round2 (concs.foldl max (concs.headD 0))
    sample_count := rows.length
    dominant_polymer := modeStr (rows.map (fun r => r.polymer_type))
    risk_score := min 10 (avg / threshold * 5)
    urgency := if avg > threshold * 2 then "Immediate" else "High" }

/-- Descending risk-score order used to sort the alert list
(predictor.py line 174, list.sort reverse=True on the risk_score key). -/
def riskGE (a b : Alert) : Prop := b.risk_score ≤ a.risk_score

instance : DecidableRel riskGE :=
  fun a b => inferInstanceAs (Decidable (b.risk_score ≤ a.risk_score))

instance : IsTotal Alert riskGE := ⟨fun a b => le_total b.risk_score a.risk_score⟩

instance : IsTrans Alert riskGE := ⟨fun _ _ _ hab hbc => le_trans hbc hab⟩

/-- get_hotspot_alerts (predictor.py lines 130-179): filter rows above the
threshold, group by one-decimal grid cell, aggregate each cell, keep cells
with rounded mean above the threshold and at least 2 samples, sort by
descending risk score, return the first 10.  Grouping is expressed by
deduplicating the key list and filtering the rows of each key; the claims
proved below do not depend on the enumeration order of the cells. -/
def get_hotspot_alerts (gdf : List Row) (threshold : ℚ) : List Alert :=
  let hotspots := gdf.filter (fun r => decide (threshold < r.concentration))
  if hotspots = [] then []
  else
    let keys := (hotspots.map gridKey).dedup
    let location_stats := keys.map (fun k =>
      mkAlert threshold k (hotspots.filter (fun r => decide (gridKey r = k))))
    let alerts := location_stats.filter (fun a =>
      decide (threshold < a.avg_concentration) && decide (2 ≤ a.sample_count))
    (List.insertionSort riskGE alerts).take 10

/-! ### Helper lemmas about the embedded definitions -/

lemma prepare_y_eq (gdf : List Row) (region : String) :
    (prepare_training_data gdf region).2.1 =
      ((prepare_training_data gdf region).2.2).map (fun r => r.concentration) := rfl

lemma prepare_X_len (gdf : List Row) (region : String) :
    (prepare_training_data gdf region).1.length =
      ((prepare_training_data gdf region).2.2).length := by
  simp [prepare_training_data]

lemma prepare_regional_ne_nil (gdf : List Row) (region : String)
    (hne : gdf ≠ []) : (prepare_training_data gdf region).2.2 ≠ [] := by
  simp only [prepare_training_data]
  split
  · simpa using hne
  · rename_i hlen
    intro hnil
    rw [hnil] at hlen
    simp at hlen

lemma prepare_of_few (gdf : List Row) (region : String)
    (hfew : (gdf.filter (fun r => r.region == region)).length < 5) :
    (prepare_training_data gdf region).2.2 =
      gdf.map (fun r => { r with region := "Global" }) := by
  simp [prepare_training_data, hfew]

lemma futureLoop_succ (mp : ℤ → ℚ) (cur : ℚ) (cy : ℤ) (i k : ℕ) (lp : ℚ) :
    futureLoop mp cur cy i (k+1) lp =
      { year := cy + (i : ℤ)
        predicted_concentration := round2 (lp * growth_factor)
        change_from_current :=
          round1 ((lp * growth_factor - cur) / cur * 100) } ::
      futureLoop mp cur cy (i+1) k (lp * growth_factor) := by
  simp [futureLoop]

lemma futureLoop_getLast (mp : ℤ → ℚ) (cur : ℚ) (cy : ℤ) :
    ∀ (k i : ℕ) (lp : ℚ),
      (futureLoop mp cur cy i (k+1) lp).getLast? =
        some { year := cy + ((i + k : ℕ) : ℤ)
               predicted_concentration := round2 (lp * growth_factor ^ (k+1))
               change_from_current :=
                 round1 ((lp * growth_factor ^ (k+1) - cur) / cur * 100) }
  | 0, i, lp => by
    rw [futureLoop_succ]
    simp [futureLoop, pow_one]
  | (k+1), i, lp => by
    rw [futureLoop_succ]
    rw [futureLoop_succ]
    rw [List.getLast?_cons_cons]
    rw [← futureLoop_succ]
    rw [futureLoop_getLast mp cur cy k (i+1) (lp * growth_factor)]
    have h1 : lp * growth_factor * growth_factor ^ (k+1) =
        lp * growth_factor ^ (k+1+1) := by ring
    have h2 : (i + 1 + k : ℕ) = (i + (k+1) : ℕ) := by omega
    rw [h1, h2]

lemma future_predictions_getLast (mp : ℤ → ℚ) (cur : ℚ) (cy : ℤ) (k : ℕ) :
    (future_predictions mp cur cy (k+1)).getLast? =
      some { year := cy + ((k + 1 : ℕ) : ℤ)
             predicted_concentration := round2 (cur * growth_factor ^ (k+1))
             change_from_current :=
               round1 ((cur * growth_factor ^ (k+1) - cur) / cur * 100) } := by
  unfold future_predictions
  rw [futureLoop_getLast]
  have h2 : (1 + k : ℕ) = (k + 1 : ℕ) := by omega
  rw [h2]

/-- Master equation for the success path of predict_future_trend: with a
non-empty table and a positive horizon, the returned record is the one
given by the compounding extrapolation from the training mean. -/
lemma predict_success (gdf : List Row) (region : String) (k : ℕ)
    (mt : String) (mp : ℤ → ℚ) (hne : gdf ≠ []) :
    predict_future_trend gdf region (k+1) mt mp =
      { region := region
        current_concentration :=
          round2 (mean ((prepare_training_data gdf region).2.1))
        current_year :=
          ((((prepare_training_data gdf region).2.2).map
            (fun r => r.year)).max?).getD 0
        prediction_year :=
          ((((prepare_training_data gdf region).2.2).map
            (fun r => r.year)).max?).getD 0 + ((k + 1 : ℕ) : ℤ)
        predicted_concentration :=
          round2 (mean ((prepare_training_data gdf region).2.1) *
            growth_factor ^ (k+1))
        percentage_increase :=
          round1 ((mean ((prepare_training_data gdf region).2.1) *
              growth_factor ^ (k+1) -
            mean ((prepare_training_data gdf region).2.1)) /
            mean ((prepare_training_data gdf region).2.1) * 100)
        absolute_increase :=
          round2 (round2 (mean ((prepare_training_data gdf region).2.1) *
              growth_factor ^ (k+1)) -
            mean ((prepare_training_data gdf region).2.1))
        confidence := if mt == "simple" then 75 else 85
        risk_level :=
          if round1 ((mean ((prepare_training_data gdf region).2.1) *
                growth_factor ^ (k+1) -
              mean ((prepare_training_data gdf region).2.1)) /
              mean ((prepare_training_data gdf region).2.1) * 100) > 10
          then "High"
          else if round1 ((mean ((prepare_training_data gdf region).2.1) *
                growth_factor ^ (k+1) -
              mean ((prepare_training_data gdf region).2.1)) /
              mean ((prepare_training_data gdf region).2.1) * 100) > 5
          then "Moderate" else "Low"
        recommendations :=
          get_recommendations
            (round1 ((mean ((prepare_training_data gdf region).2.1) *
                growth_factor ^ (k+1) -
              mean ((prepare_training_data gdf region).2.1)) /
              mean ((prepare_training_data gdf region).2.1) * 100))
        model_used := mt
        data_points_used := (prepare_training_data gdf region).1.length } := by
  have hreg : ¬ (((prepare_training_data gdf region).2.2).length = 0 ∨
      (k + 1 : ℕ) = 0) := by
    push_neg
    exact ⟨by simpa [List.length_eq_zero] using
      prepare_regional_ne_nil gdf region hne, Nat.succ_ne_zero k⟩
  simp only [predict_future_trend]
  rw [if_neg hreg]
  rw [future_predictions_getLast]
  rfl

/-! ### Concrete tables used by witnesses and counterexamples -/

/-- Sample row in region Test at the origin, as in the spec scenario. -/
def mkTestRow (c : ℚ) : Row :=
  { latitude := 0, longitude := 0, concentration := c, year := 2020, month := 6,
    region := "Test", polymer_type := "Polyethylene (PE)" }

/-- The spec scenario table: 5 samples in region Test with concentrations
120, 95, 150, 80, 200. -/
def gdfTest : List Row :=
  [mkTestRow 120, mkTestRow 95, mkTestRow 150, mkTestRow 80, mkTestRow 200]

/-- Sample row in region Other, used to request a region with no data. -/
def mkOtherRow (c : ℚ) : Row :=
  { latitude := 20, longitude := 30, concentration := c, year := 2021, month := 3,
    region := "Other", polymer_type := "Polypropylene (PP)" }

/-- A table whose 5 rows all lie in region Other. -/
def gdfOther : List Row :=
  [mkOtherRow 10, mkOtherRow 20, mkOtherRow 30, mkOtherRow 40, mkOtherRow 50]

/-- A table with exactly 20 rows in region Test. -/
def gdfTwenty : List Row := List.replicate 20 (mkTestRow 100)

/-! ### Claim theorems -/

/-- C2: for every successful prediction with horizon h at least 1, the
returned predicted_concentration equals the training mean concentration
multiplied by the fixed 1.05 growth factor compounded h times, rounded to
2 decimals at output.  The model tier mt and the fitted estimator's own
prediction mp are universally quantified and absent from the right-hand
side: the result is independent of both. -/
theorem predicted_concentration_compound_growth (gdf : List Row)
    (region : String) (h : ℕ) (mt : String) (mp : ℤ → ℚ)
    (hne : gdf ≠ []) (hh : 1 ≤ h) :
    (predict_future_trend gdf region h mt mp).predicted_concentration =
      round2 (mean ((prepare_training_data gdf region).2.1) *
        growth_factor ^ h) := by
  obtain ⟨k, rfl⟩ : ∃ k, h = k + 1 := ⟨h - 1, by omega⟩
  rw [predict_success gdf region k mt mp hne]

/-- Witness for C2 at the concrete scenario table with horizon 2. -/
theorem predicted_concentration_compound_growth_witness :
    gdfTest ≠ [] ∧ 1 ≤ 2 ∧
    (predict_future_trend gdfTest "Test" 2 "simple"
        (fun _ => 0)).predicted_concentration =
      round2 (mean ((prepare_training_data gdfTest "Test").2.1) *
        growth_factor ^ 2) :=
  ⟨by simp [gdfTest], by norm_num,
   predicted_concentration_compound_growth gdfTest "Test" 2 "simple"
     (fun _ => 0) (by simp [gdfTest]) (by norm_num)⟩

/-- C5: predict_future_trend is a total function (the embedding of the
try/except of predictor.py lines 47-128): for every input it returns a
structurally complete Prediction record, and whenever the exceptional
branch is taken the result is the fixed fallback record, whose model_used
field is the string fallback and whose confidence is 60; otherwise
model_used echoes the requested model flag. -/
theorem predict_never_raises (gdf : List Row) (region : String) (h : ℕ)
    (mt : String) (mp : ℤ → ℚ) :
    (predict_future_trend gdf region h mt mp = fallback_prediction region ∧
       (fallback_prediction region).model_used = "fallback" ∧
       (fallback_prediction region).confidence = 60) ∨
    (predict_future_trend gdf region h mt mp).model_used = mt := by
  simp only [predict_future_trend]
  split
  · exact Or.inl ⟨rfl, rfl, rfl⟩
  · exact Or.inr rfl

/-- C1 (amended): when the requested region matches fewer than 5 rows, the
success path really does fit on the full dataset, every training row is
relabelled Global, and data_points_used equals the full table size; but
the returned record's region field equals the requested region string, not
Global (predictor.py line 97 returns the region argument unchanged). -/
theorem predict_sparse_region_fits_global (gdf : List Row) (region : String)
    (h : ℕ) (mt : String) (mp : ℤ → ℚ) (hne : gdf ≠ []) (hh : 1 ≤ h)
    (hfew : (gdf.filter (fun r => r.region == region)).length < 5) :
    (predict_future_trend gdf region h mt mp).data_points_used = gdf.length ∧
    (predict_future_trend gdf region h mt mp).region = region ∧
    ∀ t ∈ (prepare_training_data gdf region).2.2, t.region = "Global" := by
  obtain ⟨k, rfl⟩ : ∃ k, h = k + 1 := ⟨h - 1, by omega⟩
  rw [predict_success gdf region k mt mp hne]
  refine ⟨?_, rfl, ?_⟩
  · show (prepare_training_data gdf region).1.length = gdf.length
    rw [prepare_X_len, prepare_of_few gdf region hfew]
    simp
  · rw [prepare_of_few gdf region hfew]
    intro t ht
    obtain ⟨r, hr, rfl⟩ := List.mem_map.1 ht
    rfl

/-- Witness for C1 (amended): region Test has 0 matching rows in gdfOther;
the returned record still carries region Test. -/
theorem predict_sparse_region_fits_global_witness :
    gdfOther ≠ [] ∧
    (gdfOther.filter (fun r => r.region == "Test")).length < 5 ∧
    (predict_future_trend gdfOther "Test" 1 "simple" (fun _ => 0)).region =
      "Test" :=
  ⟨by simp [gdfOther], by simp [gdfOther, mkOtherRow],
   (predict_sparse_region_fits_global gdfOther "Test" 1 "simple" (fun _ => 0)
     (by simp [gdfOther]) (le_refl 1) (by simp [gdfOther, mkOtherRow])).2.1⟩

/-- Counterexample to C1 as stated: with a region matching fewer than 5
rows, the returned prediction record's region field is the requested
region (Test), not Global. -/
theorem predict_sparse_region_region_label_cex :
    (gdfOther.filter (fun r => r.region == "Test")).length < 5 ∧
    (predict_future_trend gdfOther "Test" 1 "simple" (fun _ => 0)).region ≠
      "Global" := by
  constructor
  · simp [gdfOther, mkOtherRow]
  · rw [show (1:ℕ) = 0 + 1 from rfl,
      predict_success gdfOther "Test" 0 "simple" (fun _ => 0)
        (by simp [gdfOther])]
    simp

/-- Classification chain of predictor.py line 105, analysed once for all
percentage values. -/
lemma risk_classify (p : ℚ) :
    ((if p > 10 then "High" else if p > 5 then "Moderate" else "Low") = "High"
        ↔ 10 < p) ∧
    ((if p > 10 then "High" else if p > 5 then "Moderate" else "Low") =
        "Moderate" ↔ (5 < p ∧ p ≤ 10)) ∧
    ((if p > 10 then "High" else if p > 5 then "Moderate" else "Low") = "Low"
        ↔ p ≤ 5) := by
  split_ifs with h1 h2
  · refine ⟨by simp [h1], ?_, ?_⟩
    · simp only [show ("High" : String) ≠ "Moderate" from by decide,
        iff_false, false_iff]
      rintro ⟨-, hle⟩
      linarith
    · simp only [show ("High" : String) ≠ "Low" from by decide, false_iff]
      intro hle
      linarith
  · refine ⟨?_, ?_, ?_⟩
    · simp only [show ("Moderate" : String) ≠ "High" from by decide, false_iff]
      exact h1
    · simp only [show ("Moderate" : String) = "Moderate" from rfl, true_iff]
      exact ⟨h2, le_of_not_lt h1⟩
    · simp only [show ("Moderate" : String) ≠ "Low" from by decide, false_iff]
      intro hle
      linarith
  · refine ⟨?_, ?_, ?_⟩
    · simp only [show ("Low" : String) ≠ "High" from by decide, false_iff]
      exact h1
    · simp only [show ("Low" : String) ≠ "Moderate" from by decide, false_iff]
      rintro ⟨h5, -⟩
      exact h2 h5
    · simp only [show ("Low" : String) = "Low" from rfl, true_iff]
      exact le_of_not_lt h2

/-- C4: on the success path, the returned risk_level is High exactly when
the computed percentage increase exceeds 10, Moderate exactly when it
exceeds 5 and is at most 10, Low exactly when it is at most 5; and the
returned confidence is 75 for the simple flag and 85 for the advanced
flag. -/
theorem risk_level_thresholds_and_confidence (gdf : List Row)
    (region : String) (h : ℕ) (mt : String) (mp : ℤ → ℚ)
    (hne : gdf ≠ []) (hh : 1 ≤ h) :
    ((predict_future_trend gdf region h mt mp).risk_level = "High" ↔
       10 < (predict_future_trend gdf region h mt mp).percentage_increase) ∧
    ((predict_future_trend gdf region h mt mp).risk_level = "Moderate" ↔
       (5 < (predict_future_trend gdf region h mt mp).percentage_increase ∧
        (predict_future_trend gdf region h mt mp).percentage_increase ≤ 10)) ∧
    ((predict_future_trend gdf region h mt mp).risk_level = "Low" ↔
       (predict_future_trend gdf region h mt mp).percentage_increase ≤ 5) ∧
    (mt = "simple" →
      (predict_future_trend gdf region h mt mp).confidence = 75) ∧
    (mt = "advanced" →
      (predict_future_trend gdf region h mt mp).confidence = 85) := by
  obtain ⟨k, rfl⟩ : ∃ k, h = k + 1 := ⟨h - 1, by omega⟩
  rw [predict_success gdf region k mt mp hne]
  refine ⟨(risk_classify _).1, (risk_classify _).2.1, (risk_classify _).2.2,
    ?_, ?_⟩
  · intro hmt
    simp [hmt]
  · intro hmt
    simp [hmt]

/-- Witness for C4 at the concrete scenario table: simple-tier confidence
is 75 and the Low classification agrees with the threshold reading. -/
theorem risk_level_thresholds_and_confidence_witness :
    (predict_future_trend gdfTest "Test" 1 "simple" (fun _ => 0)).confidence =
      75 ∧
    ((predict_future_trend gdfTest "Test" 1 "simple" (fun _ => 0)).risk_level =
        "Low" ↔
      (predict_future_trend gdfTest "Test" 1 "simple"
          (fun _ => 0)).percentage_increase ≤ 5) :=
  ⟨(risk_level_thresholds_and_confidence gdfTest "Test" 1 "simple" (fun _ => 0)
      (by simp [gdfTest]) (le_refl 1)).2.2.2.1 rfl,
   (risk_level_thresholds_and_confidence gdfTest "Test" 1 "simple" (fun _ => 0)
      (by simp [gdfTest]) (le_refl 1)).2.2.1⟩

/-- Mean concentration of the scenario table: (120+95+150+80+200)/5 = 129. -/
lemma gdfTest_mean : mean ((prepare_training_data gdfTest "Test").2.1) = 129 := by
  norm_num [prepare_training_data, gdfTest, mkTestRow, mean, List.filter]

/-- C3 (amended): the spec scenario (region Test, concentrations 120, 95,
150, 80, 200, horizon 1, simple model) yields current_concentration 129,
predicted_concentration 135.45, percentage_increase 5.0 and risk_level
Low: the rounded percentage increase is exactly 5, and line 105 classifies
Moderate only for values strictly greater than 5. -/
theorem scenario_test_region_amended :
    (predict_future_trend gdfTest "Test" 1 "simple"
        (fun _ => 0)).current_concentration = 129 ∧
    (predict_future_trend gdfTest "Test" 1 "simple"
        (fun _ => 0)).predicted_concentration = 2709/20 ∧
    (predict_future_trend gdfTest "Test" 1 "simple"
        (fun _ => 0)).percentage_increase = 5 ∧
    (predict_future_trend gdfTest "Test" 1 "simple"
        (fun _ => 0)).risk_level = "Low" := by
  have hne : gdfTest ≠ [] := by simp [gdfTest]
  rw [show (1:ℕ) = 0 + 1 from rfl,
    predict_success gdfTest "Test" 0 "simple" (fun _ => 0) hne, gdfTest_mean]
  dsimp only
  norm_num [round2, round1, growth_factor]

/-- Counterexample to C3 as stated: on the scenario input the returned
risk_level is not Moderate (it is Low, because the percentage increase is
exactly 5 and the Moderate branch requires strictly more than 5). -/
theorem scenario_test_region_risk_cex :
    (predict_future_trend gdfTest "Test" 1 "simple" (fun _ => 0)).risk_level ≠
      "Moderate" := by
  have hne : gdfTest ≠ [] := by simp [gdfTest]
  rw [show (1:ℕ) = 0 + 1 from rfl,
    predict_success gdfTest "Test" 0 "simple" (fun _ => 0) hne, gdfTest_mean]
  dsimp only
  norm_num [round1, growth_factor]
  decide

/-- Size of the selected training set, unfolded to the region filter. -/
lemma prepare_len (gdf : List Row) (region : String) :
    ((prepare_training_data gdf region).2.2).length =
      if (gdf.filter (fun r => r.region == region)).length < 5
      then gdf.length
      else (gdf.filter (fun r => r.region == region)).length := by
  simp only [prepare_training_data]
  split <;> simp

/-- C7 (amended): the feature-standardized ensemble regressor is trained
exactly when the model flag is advanced and strictly more than 20 data
points are available after regional/global selection (predictor.py line 50
tests len(X) > 20); in every other case, including exactly 20 points, the
ordinary linear fit is used. -/
theorem uses_advanced_model_iff (gdf : List Row) (region : String)
    (mt : String) :
    uses_advanced_model gdf region mt = true ↔
      (mt = "advanced" ∧ 20 <
        (if (gdf.filter (fun r => r.region == region)).length < 5
         then gdf.length
         else (gdf.filter (fun r => r.region == region)).length)) := by
  simp only [uses_advanced_model, Bool.and_eq_true, beq_iff_eq,
    decide_eq_true_eq, prepare_X_len, prepare_len]

/-- Counterexample to C7 as stated: with exactly 20 available data points
and the advanced flag requested, the ensemble tier is not trained. -/
theorem advanced_tier_gate_cex :
    (prepare_training_data gdfTwenty "Test").1.length = 20 ∧
    uses_advanced_model gdfTwenty "Test" "advanced" = false := by
  decide

/-- Raw table whose fourth record has a missing (NaN) concentration while
the first three carry 10, 20, 30; all coordinates are valid. -/
def rawMissingConc : List RawRow :=
  [{ latitude := some 0, longitude := some 0, concentration := some 10,
     year := some 2020, month := 1, polymer_type := "PE" },
   { latitude := some 1, longitude := some 1, concentration := some 20,
     year := some 2020, month := 2, polymer_type := "PE" },
   { latitude := some 2, longitude := some 2, concentration := some 30,
     year := some 2020, month := 3, polymer_type := "PE" },
   { latitude := some 3, longitude := some 3, concentration := none,
     year := some 2020, month := 4, polymer_type := "PE" }]

/-- C8 (amended): during loading every missing or non-numeric
concentration is imputed with zero (data_loader.py line 48 fillna(0)), so
the prepared column equals the raw column with getD 0 applied; the median
imputation of predictor.py line 25 only affects NaN entries still present
in its input and is the identity on any fully numeric column such as the
loader's output. -/
theorem load_concentration_fillna_zero (raw : List RawRow) (cy : ℤ) :
    (load_microplastics_data raw cy).map (fun r => r.concentration) =
      (raw.filter validRow).map (fun s => s.concentration.getD 0) ∧
    ∀ l : List ℚ, fillna_median (l.map some) = l := by
  constructor
  · simp [load_microplastics_data, toRow]
  · intro l
    simp only [fillna_median, List.filterMap_map, List.map_map]
    have h : ((fun x : Option ℚ =>
        x.getD (median (List.filterMap (id ∘ some) l))) ∘ some) = id :=
      funext fun a => rfl
    rw [h, List.map_id]

/-- Counterexample to C8 as stated: the record with missing concentration
is loaded with value 0, not with the median (20) of the existing values. -/
theorem concentration_imputed_zero_not_median_cex :
    (load_microplastics_data rawMissingConc 2025).map
        (fun r => r.concentration) = [10, 20, 30, 0] ∧
    median [10, 20, 30] = 20 ∧
    ((load_microplastics_data rawMissingConc 2025).map
        (fun r => r.concentration)).getD 3 0 ≠ median [10, 20, 30] := by
  decide

/-- Every coordinate pair free of NaN is assigned one of the enumerated
labels. -/
lemma assign_region_some_mem (la lo : ℚ) :
    assign_region (some la) (some lo) ∈ regionLabels := by
  simp only [assign_region]
  split_ifs <;> decide

/-- Every coordinate pair free of NaN avoids the label Unknown. -/
lemma assign_region_some_ne_unknown (la lo : ℚ) :
    assign_region (some la) (some lo) ≠ "Unknown" := by
  simp only [assign_region]
  split_ifs <;> decide

/-- C9: for every coordinate pair with absolute latitude at most 90 and
absolute longitude at most 180 and neither value NaN, assign_region
returns one of the fixed enumerated labels and never Unknown; and
whenever either coordinate is NaN it returns Unknown, whatever the other
coordinate is. -/
theorem assign_region_labels_spec (lat lon : ℚ)
    (h1 : |lat| ≤ 90) (h2 : |lon| ≤ 180) :
    (assign_region (some lat) (some lon) ∈ regionLabels ∧
     assign_region (some lat) (some lon) ≠ "Unknown") ∧
    (∀ a : Option ℚ, assign_region none a = "Unknown") ∧
    (∀ a : Option ℚ, assign_region a none = "Unknown") := by
  refine ⟨⟨assign_region_some_mem lat lon,
    assign_region_some_ne_unknown lat lon⟩, fun a => by cases a <;> rfl,
    fun a => by cases a <;> rfl⟩

/-- Witness for C9 at the origin. -/
theorem assign_region_labels_spec_witness :
    |(0:ℚ)| ≤ 90 ∧ |(0:ℚ)| ≤ 180 ∧
    assign_region (some 0) (some 0) ∈ regionLabels :=
  ⟨by norm_num, by norm_num,
   ((assign_region_labels_spec 0 0 (by norm_num) (by norm_num)).1).1⟩

/-- C10: every row of the table returned by load_microplastics_data has
latitude in [-90, 90], longitude in [-180, 180], and a region label that
is never Unknown: rows whose coordinates are NaN are assigned Unknown but
are removed by the coordinate range filter before the table is returned. -/
theorem loaded_rows_valid (raw : List RawRow) (cy : ℤ) (r : Row)
    (hr : r ∈ load_microplastics_data raw cy) :
    -90 ≤ r.latitude ∧ r.latitude ≤ 90 ∧
    -180 ≤ r.longitude ∧ r.longitude ≤ 180 ∧ r.region ≠ "Unknown" := by
  unfold load_microplastics_data at hr
  obtain ⟨s, hs, rfl⟩ := List.mem_map.1 hr
  have hv := (List.mem_filter.1 hs).2
  unfold validRow at hv
  cases hla : s.latitude with
  | none =>
    rw [hla] at hv
    simp at hv
  | some la =>
    cases hlo : s.longitude with
    | none =>
      rw [hla, hlo] at hv
      simp at hv
    | some lo =>
      rw [hla, hlo] at hv
      simp only [decide_eq_true_eq] at hv
      simp only [toRow, hla, hlo, Option.getD_some]
      exact ⟨hv.1, hv.2.1, hv.2.2.1, hv.2.2.2,
        assign_region_some_ne_unknown la lo⟩

/-- The first loaded row of rawMissingConc: the origin lies in the
tropical Atlantic box. -/
def rowAtlantic : Row :=
  { latitude := 0, longitude := 0, concentration := 10, year := 2020,
    month := 1, region := "Atlantic", polymer_type := "PE" }

/-- Witness for C10 at a concrete loaded table. -/
theorem loaded_rows_valid_witness :
    rowAtlantic ∈ load_microplastics_data rawMissingConc 2025 ∧
    -90 ≤ rowAtlantic.latitude ∧ rowAtlantic.region ≠ "Unknown" := by
  have hm : rowAtlantic ∈ load_microplastics_data rawMissingConc 2025 := by
    decide
  have H := loaded_rows_valid rawMissingConc 2025 rowAtlantic hm
  exact ⟨hm, H.1, H.2.2.2.2⟩

/-- C6: for every input table and threshold, get_hotspot_alerts returns
at most 10 alerts, sorted in descending order of risk_score; every
returned alert has sample_count at least 2 and avg_concentration strictly
greater than the threshold; and every returned alert's grid cell holds at
least 2 samples of the input table, so a cell with a single sample is
never returned regardless of its concentration. -/
theorem hotspot_alerts_spec (gdf : List Row) (threshold : ℚ) :
    (get_hotspot_alerts gdf threshold).length ≤ 10 ∧
    List.Pairwise riskGE (get_hotspot_alerts gdf threshold) ∧
    ∀ a ∈ get_hotspot_alerts gdf threshold,
      2 ≤ a.sample_count ∧ threshold < a.avg_concentration ∧
      2 ≤ (gdf.filter (fun r => decide (gridKey r = (a.lat, a.lon)))).length := by
  simp only [get_hotspot_alerts]
  split
  · exact ⟨by simp, List.Pairwise.nil, by simp⟩
  · refine ⟨?_, ?_, ?_⟩
    · exact le_of_eq_of_le (List.length_take _ _) (min_le_left _ _)
    · exact List.Pairwise.sublist (List.take_sublist _ _)
        (List.sorted_insertionSort riskGE _)
    · intro a ha
      have ha1 := List.take_subset _ _ ha
      have ha2 := (List.perm_insertionSort riskGE _).mem_iff.1 ha1
      obtain ⟨hstat, hpred⟩ := List.mem_filter.1 ha2
      simp only [Bool.and_eq_true, decide_eq_true_eq] at hpred
      obtain ⟨k, hk, rfl⟩ := List.mem_map.1 hstat
      refine ⟨hpred.2, hpred.1, ?_⟩
      show 2 ≤ (gdf.filter (fun r => decide (gridKey r = k))).length
      have hsub :
          (((gdf.filter (fun r => decide (threshold < r.concentration))).filter
              (fun r => decide (gridKey r = k)))).Sublist
            (gdf.filter (fun r => decide (gridKey r = k))) :=
        (gdf.filter_sublist).filter _
      exact le_trans hpred.2 hsub.length_le

/-- Sample row used by the hotspot scenario. -/
def mkHotRow (la lo c : ℚ) : Row :=
  { latitude := la, longitude := lo, concentration := c, year := 2022,
    month := 7, region := "Test", polymer_type := "PS" }

/-- The hotspot scenario table: one grid cell with 3 samples of 150 and a
second cell with a single sample of 500. -/
def gdfHot : List Row :=
  [mkHotRow 0 0 150, mkHotRow 0 0 150, mkHotRow 0 0 150, mkHotRow 5 5 500]

/-- The alert produced for the 3-sample cell of gdfHot at threshold 100. -/
def alertHot : Alert :=
  { lat := 0, lon := 0, avg_concentration := 150, max_concentration := 150,
    sample_count := 3, dominant_polymer := "PS", risk_score := 15/2,
    urgency := "High" }

/-- The aggregate computed for the single-sample 500 cell of gdfHot. -/
def alert500 : Alert :=
  { lat := 5, lon := 5, avg_concentration := 500, max_concentration := 500,
    sample_count := 1, dominant_polymer := "PS", risk_score := 10,
    urgency := "Immediate" }

/-- Concrete evaluation of the hotspot subroutine on gdfHot: the
single-sample 500 cell is dropped, the 3-sample 150 cell is returned. -/
lemma hotspot_concrete : get_hotspot_alerts gdfHot 100 = [alertHot] := by
  have hg1 : gridKey (mkHotRow 0 0 150) = (0, 0) := by
    simp only [gridKey, mkHotRow]
    norm_num [round1]
  have hg2 : gridKey (mkHotRow 5 5 500) = (5, 5) := by
    simp only [gridKey, mkHotRow]
    norm_num [round1]
  have h1 : gdfHot.filter (fun r => decide ((100:ℚ) < r.concentration)) =
      gdfHot := by
    simp only [gdfHot, List.filter_cons, List.filter_nil, mkHotRow]
    norm_num
  have h4 : gdfHot.filter (fun r => decide (gridKey r = ((0:ℚ),(0:ℚ)))) =
      [mkHotRow 0 0 150, mkHotRow 0 0 150, mkHotRow 0 0 150] := by
    simp only [gdfHot, List.filter_cons, List.filter_nil, hg1, hg2]
    norm_num [Prod.ext_iff, Prod.fst_zero, Prod.snd_zero]
  have h5 : gdfHot.filter (fun r => decide (gridKey r = ((5:ℚ),(5:ℚ)))) =
      [mkHotRow 5 5 500] := by
    simp only [gdfHot, List.filter_cons, List.filter_nil, hg1, hg2]
    norm_num [Prod.ext_iff, Prod.fst_zero, Prod.snd_zero]
  have hmode3 : modeStr ["PS", "PS", "PS"] = "PS" := by decide
  have hmode1 : modeStr ["PS"] = "PS" := by decide
  have h6 : mkAlert 100 ((0:ℚ),(0:ℚ))
      [mkHotRow 0 0 150, mkHotRow 0 0 150, mkHotRow 0 0 150] = alertHot := by
    simp only [mkAlert, mkHotRow, alertHot, mean, List.map_cons, List.map_nil,
      hmode3]
    norm_num [round2, min_def]
  have h7 : mkAlert 100 ((5:ℚ),(5:ℚ)) [mkHotRow 5 5 500] = alert500 := by
    simp only [mkAlert, mkHotRow, alert500, mean, List.map_cons, List.map_nil,
      hmode1]
    norm_num [round2, min_def]
  have hmap : gdfHot.map gridKey =
      [((0:ℚ),(0:ℚ)), (0,0), (0,0), (5,5)] := by
    simp only [gdfHot, List.map_cons, List.map_nil, hg1, hg2]
  have hded : ([((0:ℚ),(0:ℚ)), (0,0), (0,0), (5,5)]).dedup =
      [(0,0), (5,5)] := by decide
  simp only [get_hotspot_alerts]
  rw [h1, if_neg (by simp [gdfHot]), hmap, hded]
  simp only [List.map_cons, List.map_nil]
  rw [h4, h5, h6, h7]
  have hfil : ([alertHot, alert500].filter (fun a =>
      decide ((100:ℚ) < a.avg_concentration) && decide (2 ≤ a.sample_count))) =
      [alertHot] := by
    simp only [List.filter_cons, List.filter_nil, alertHot, alert500]
    norm_num
  rw [hfil]
  simp [List.insertionSort, List.orderedInsert]

/-- Witness for C6 at the hotspot scenario table. -/
theorem hotspot_alerts_spec_witness :
    alertHot ∈ get_hotspot_alerts gdfHot 100 ∧
    2 ≤ alertHot.sample_count ∧ (100:ℚ) < alertHot.avg_concentration ∧
    2 ≤ (gdfHot.filter
        (fun r => decide (gridKey r = (alertHot.lat, alertHot.lon)))).length ∧
    (get_hotspot_alerts gdfHot 100).length ≤ 10 := by
  have hm : alertHot ∈ get_hotspot_alerts gdfHot 100 := by
    rw [hotspot_concrete]
    exact List.mem_singleton.2 rfl
  have H := hotspot_alerts_spec gdfHot 100
  exact ⟨hm, (H.2.2 alertHot hm).1, (H.2.2 alertHot hm).2.1,
    (H.2.2 alertHot hm).2.2, H.1⟩
